import Mathlib

/-!
Verification of the AWS-LC FIPS service-indicator subsystem
(`crypto/fipsmodule/service_indicator/service_indicator.c`).

The subsystem keeps one `fips_service_indicator_state` per thread, holding a
reentrancy lock depth (`lock_state`) and an approval counter (`counter`), both
C `uint64_t` values.  We embed the thread-local record as an
`Option fips_service_indicator_state` (`none` = no store registered for the
thread yet) and machine integers as `Nat` reduced modulo `2 ^ 64` wherever the
C code can overflow.  Lazy creation of the store by `service_indicator_get`
can fail (malloc failure or thread-local registration failure); this external
outcome is modelled by a boolean `alloc_ok` argument threaded to every
operation.  A call that reaches `abort()` is modelled by the `SIResult.aborted`
value; every other call returns `SIResult.ok` with the updated thread-local
record.
-/

/-- NID / constant values used by the predicates.  The numeric values come from
the library headers (`include/openssl/nid.h`, `evp.h`, `rsa.h`), which are
out-of-scope collaborators; only their identities matter to the predicates. -/
def NID_md5 : Int := 4

def NID_sha1 : Int := 64

def NID_md5_sha1 : Int := 114

def NID_sha256 : Int := 672

def NID_sha384 : Int := 673

def NID_sha512 : Int := 674

def NID_sha224 : Int := 675

def NID_secp224r1 : Int := 713

def NID_X9_62_prime256v1 : Int := 415

def NID_secp384r1 : Int := 715

def NID_secp521r1 : Int := 716

def NID_aes_128_ecb : Int := 418

def NID_aes_128_cbc : Int := 419

def NID_aes_128_ctr : Int := 904

def NID_aes_192_ecb : Int := 422

def NID_aes_192_cbc : Int := 423

def NID_aes_192_ctr : Int := 905

def NID_aes_256_ecb : Int := 426

def NID_aes_256_cbc : Int := 427

def NID_aes_256_ctr : Int := 906

def EVP_PKEY_RSA : Int := 6

def EVP_PKEY_RSA_PSS : Int := 912

def EVP_PKEY_EC : Int := 408

def RSA_PKCS1_PADDING : Int := 1

def RSA_PKCS1_PSS_PADDING : Int := 6

/-- `#define STATE_UNLOCKED 0` (service_indicator.c line 22). -/
def STATE_UNLOCKED : Nat := 0

/-- The width modulus of a C `uint64_t`. -/
def UINT64_MOD : Nat := 2 ^ 64

/-- `struct fips_service_indicator_state` (service_indicator.c lines 26-33):
the thread-local record holding the reentrancy lock depth and the approval
counter, both `uint64_t`. -/
structure fips_service_indicator_state where
  lock_state : Nat
  counter : Nat
deriving DecidableEq

/-- Result of an operation of the subsystem: either a normal return carrying
the (possibly newly registered) thread-local record, or a call to `abort()`. -/
inductive SIResult where
  | ok (s : Option fips_service_indicator_state)
  | aborted
deriving DecidableEq

/-- `service_indicator_get` (lines 41-64): returns the thread's record, lazily
creating and registering `{lock_state := STATE_UNLOCKED, counter := 0}` on
first access.  `alloc_ok = false` models `OPENSSL_malloc` or
`CRYPTO_set_thread_local` failing, in which case the function returns NULL
(`none`) and the thread-local slot stays unset. -/
def service_indicator_get (alloc_ok : Bool) (s : Option fips_service_indicator_state) :
    Option fips_service_indicator_state :=
  match s with
  | some indicator => some indicator
  | none => if alloc_ok then some ⟨STATE_UNLOCKED, 0⟩ else none

/-- `service_indicator_get_counter` (lines 66-72): the counter of this
thread's record, or 0 when no record can be obtained.  The second component is
the thread-local record after the call (the call may have registered a fresh
record). -/
def service_indicator_get_counter (alloc_ok : Bool)
    (s : Option fips_service_indicator_state) :
    Nat × Option fips_service_indicator_state :=
  match service_indicator_get alloc_ok s with
  | none => (0, none)
  | some indicator => (indicator.counter, some indicator)

/-- `FIPS_service_indicator_before_call` (lines 74-76). -/
def FIPS_service_indicator_before_call (alloc_ok : Bool)
    (s : Option fips_service_indicator_state) :
    Nat × Option fips_service_indicator_state :=
  service_indicator_get_counter alloc_ok s

/-- `FIPS_service_indicator_after_call` (lines 78-80). -/
def FIPS_service_indicator_after_call (alloc_ok : Bool)
    (s : Option fips_service_indicator_state) :
    Nat × Option fips_service_indicator_state :=
  service_indicator_get_counter alloc_ok s

/-- `FIPS_service_indicator_update_state` (lines 82-87): when a record is
available and the indicator is unlocked, `indicator->counter++` — a `uint64_t`
increment, hence reduced modulo `2 ^ 64`.  The function contains no abort path
and surfaces no failure. -/
def FIPS_service_indicator_update_state (alloc_ok : Bool)
    (s : Option fips_service_indicator_state) : SIResult :=
  match service_indicator_get alloc_ok s with
  | none => .ok none
  | some indicator =>
    if indicator.lock_state = STATE_UNLOCKED then
      .ok (some { indicator with counter := (indicator.counter + 1) % UINT64_MOD })
    else
      .ok (some indicator)

/-- `FIPS_service_indicator_lock_state` (lines 94-113): returns silently when
no record can be obtained; computes `new_state = lock_state + 1` in `uint64_t`
arithmetic and calls `abort()` when that wrapped below the old value. -/
def FIPS_service_indicator_lock_state (alloc_ok : Bool)
    (s : Option fips_service_indicator_state) : SIResult :=
  match service_indicator_get alloc_ok s with
  | none => .ok none
  | some indicator =>
    let new_state := (indicator.lock_state + 1) % UINT64_MOD
    if new_state < indicator.lock_state then
      .aborted
    else
      .ok (some { indicator with lock_state := new_state })

/-- `FIPS_service_indicator_unlock_state` (lines 115-126): returns silently
when no record can be obtained; calls `abort()` when `lock_state == 0`;
otherwise `indicator->lock_state--`. -/
def FIPS_service_indicator_unlock_state (alloc_ok : Bool)
    (s : Option fips_service_indicator_state) : SIResult :=
  match service_indicator_get alloc_ok s with
  | none => .ok none
  | some indicator =>
    if indicator.lock_state = 0 then
      .aborted
    else
      .ok (some { indicator with lock_state := indicator.lock_state - 1 })

/-- Helper shared by every verify-glue function: the C pattern
`if (approved) FIPS_service_indicator_update_state();` applied to the current
thread-local record. -/
def update_if (approved : Prop) [Decidable approved] (alloc_ok : Bool)
    (s : Option fips_service_indicator_state) : SIResult :=
  if approved then FIPS_service_indicator_update_state alloc_ok s else .ok s

/-- The part of `EVP_AEAD_CTX` read by the AEAD verify functions:
`EVP_AEAD_key_length(ctx->aead)` (bytes) and `ctx->tag_len`. -/
structure EVP_AEAD_CTX where
  aead_key_length : Nat
  tag_len : Nat
deriving DecidableEq

/-- `AEAD_GCM_verify_service_indicator` (lines 128-136): 128- or 256-bit keys
are approved for AES-GCM. -/
def AEAD_GCM_verify_service_indicator (ctx : EVP_AEAD_CTX) (alloc_ok : Bool)
    (s : Option fips_service_indicator_state) : SIResult :=
  update_if (ctx.aead_key_length = 16 ∨ ctx.aead_key_length = 32) alloc_ok s

/-- `AEAD_CCM_verify_service_indicator` (lines 138-144): only 128-bit keys
with 32-bit (4-byte) tags are approved for AES-CCM. -/
def AEAD_CCM_verify_service_indicator (ctx : EVP_AEAD_CTX) (alloc_ok : Bool)
    (s : Option fips_service_indicator_state) : SIResult :=
  update_if (ctx.aead_key_length = 16 ∧ ctx.tag_len = 4) alloc_ok s

/-- The part of `CMAC_CTX` read by `AES_CMAC_verify_service_indicator`:
`ctx->cipher_ctx.key_len` (bytes). -/
structure CMAC_CTX where
  cipher_ctx_key_len : Nat
deriving DecidableEq

/-- `AES_CMAC_verify_service_indicator` (lines 146-153): 128- or 256-bit keys
are approved for AES-CMAC. -/
def AES_CMAC_verify_service_indicator (ctx : CMAC_CTX) (alloc_ok : Bool)
    (s : Option fips_service_indicator_state) : SIResult :=
  update_if (ctx.cipher_ctx_key_len = 16 ∨ ctx.cipher_ctx_key_len = 32) alloc_ok s

/-- `is_ec_fips_approved` (lines 157-167). -/
def is_ec_fips_approved (curve_nid : Int) : Bool :=
  if curve_nid = NID_secp224r1 ∨ curve_nid = NID_X9_62_prime256v1 ∨
      curve_nid = NID_secp384r1 ∨ curve_nid = NID_secp521r1 then
    true
  else
    false

/-- `is_md_fips_approved_for_signing` (lines 172-182). -/
def is_md_fips_approved_for_signing (md_type : Int) : Bool :=
  if md_type = NID_sha224 ∨ md_type = NID_sha256 ∨ md_type = NID_sha384 ∨
      md_type = NID_sha512 then
    true
  else
    false

/-- `is_md_fips_approved_for_verifying` (lines 187-198). -/
def is_md_fips_approved_for_verifying (md_type : Int) : Bool :=
  if md_type = NID_sha1 ∨ md_type = NID_sha224 ∨ md_type = NID_sha256 ∨
      md_type = NID_sha384 ∨ md_type = NID_sha512 then
    true
  else
    false

/-- An `EVP_MD` object.  In the library every digest is a static singleton
structure whose type (NID) determines its output size, so the digest is
identified with its NID. -/
abbrev EVP_MD : Type := Int

/-- `EVP_MD_type`: the NID of a digest. -/
def EVP_MD_type (md : EVP_MD) : Int := md

/-- `EVP_MD_size`: the output size of a digest in bytes, as recorded in the
library's static digest tables (out-of-scope collaborators). -/
def EVP_MD_size (md : EVP_MD) : Nat :=
  if EVP_MD_type md = NID_sha1 then 20
  else if EVP_MD_type md = NID_sha224 then 28
  else if EVP_MD_type md = NID_sha256 then 32
  else if EVP_MD_type md = NID_sha384 then 48
  else if EVP_MD_type md = NID_sha512 then 64
  else if EVP_MD_type md = NID_md5 then 16
  else if EVP_MD_type md = NID_md5_sha1 then 36
  else 0

/-- The parameters that `evp_md_ctx_verify_service_indicator` reads through
the `EVP_PKEY_CTX` accessors.  Accessors that can fail are `Option`-valued
(`none` models the accessor returning 0). -/
structure EVP_PKEY_CTX where
  /-- `EVP_PKEY_id(EVP_PKEY_CTX_get0_pkey(pctx))`. -/
  pkey_id : Int
  /-- `EVP_PKEY_size(ctx->pctx->pkey)` in bytes. -/
  pkey_size : Nat
  /-- `EC_GROUP_get_curve_name(pkey->pkey.ec->group)` for EC keys. -/
  ec_curve_nid : Int
  /-- result of `EVP_PKEY_CTX_get_signature_md`. -/
  signature_md : Option EVP_MD
  /-- result of `EVP_PKEY_CTX_get_rsa_padding`. -/
  rsa_padding : Option Int
  /-- result of `EVP_PKEY_CTX_get_rsa_pss_saltlen`. -/
  rsa_pss_saltlen : Option Int
  /-- result of `EVP_PKEY_CTX_get_rsa_mgf1_md`. -/
  rsa_mgf1_md : Option EVP_MD
deriving DecidableEq

/-- The part of `EVP_MD_CTX` read by the composite signature predicate:
`EVP_MD_CTX_md(ctx)` (the digest bound to the context, NULL when absent) and
`ctx->pctx`. -/
structure EVP_MD_CTX where
  md : Option EVP_MD
  pctx : EVP_PKEY_CTX
deriving DecidableEq

/-- The RSA tail check of `evp_md_ctx_verify_service_indicator`
(lines 242-249): the digest type must pass `md_ok` and the modulus size in
bytes must be 256, 384 or 512, with 128 additionally allowed when
`rsa_1024_ok` is set. -/
def rsa_md_and_size_ok (md_type : Int) (pkey_size : Nat) (rsa_1024_ok : Bool)
    (md_ok : Int → Bool) : Bool :=
  md_ok md_type &&
    ((rsa_1024_ok && (pkey_size == 128)) || (pkey_size == 256) ||
      (pkey_size == 384) || (pkey_size == 512))

/-- The approval decision of `evp_md_ctx_verify_service_indicator`
(lines 200-258), as a pure predicate: `false` corresponds to reaching the
`err` label without calling the update primitive.  The C checks the RSA
modulus size once after the padding checks; the two `rsa_md_and_size_ok`
occurrences below are the two non-failing ways of reaching that single
check. -/
def evp_md_ctx_approved (ctx : EVP_MD_CTX) (rsa_1024_ok : Bool)
    (md_ok : Int → Bool) : Bool :=
  match ctx.md with
  | none => false
  | some ctx_md =>
    let pctx := ctx.pctx
    let md_type := EVP_MD_type ctx_md
    if pctx.pkey_id = EVP_PKEY_RSA ∨ pctx.pkey_id = EVP_PKEY_RSA_PSS then
      match pctx.signature_md with
      | none => false
      | some pctx_md =>
        if EVP_MD_type pctx_md ≠ md_type then false
        else
          match pctx.rsa_padding with
          | none => false
          | some padding =>
            if padding = RSA_PKCS1_PSS_PADDING then
              match pctx.rsa_pss_saltlen, pctx.rsa_mgf1_md with
              | some salt_len, some mgf1_md =>
                if (salt_len ≠ -1 ∧ salt_len ≠ (EVP_MD_size pctx_md : Int)) ∨
                    EVP_MD_type mgf1_md ≠ md_type then
                  false
                else
                  rsa_md_and_size_ok md_type pctx.pkey_size rsa_1024_ok md_ok
              | _, _ => false
            else
              rsa_md_and_size_ok md_type pctx.pkey_size rsa_1024_ok md_ok
    else if pctx.pkey_id = EVP_PKEY_EC then
      md_ok md_type && is_ec_fips_approved pctx.ec_curve_nid
    else
      false

/-- `ERR_clear_error` of the diagnostic error-queue subsystem: removes every
error recorded for the current thread. -/
def ERR_clear_error (_queue : List Nat) : List Nat := []

/-- `evp_md_ctx_verify_service_indicator` (lines 200-263).  `queue` is the
thread's diagnostic error queue at entry and `probe_errors` the errors pushed
by the parameter accessors during the probe; every path of the C function
falls through to the `err` label, which calls `ERR_clear_error()`. -/
def evp_md_ctx_verify_service_indicator (ctx : EVP_MD_CTX) (rsa_1024_ok : Bool)
    (md_ok : Int → Bool) (alloc_ok : Bool)
    (s : Option fips_service_indicator_state)
    (queue probe_errors : List Nat) : SIResult × List Nat :=
  (update_if (evp_md_ctx_approved ctx rsa_1024_ok md_ok) alloc_ok s,
    ERR_clear_error (queue ++ probe_errors))

/-- `EC_KEY` as read by the EC verify functions: the NID of its group. -/
structure EC_KEY where
  group_curve_nid : Int
deriving DecidableEq

/-- `EC_KEY_keygen_verify_service_indicator` (lines 267-271). -/
def EC_KEY_keygen_verify_service_indicator (eckey : EC_KEY) (alloc_ok : Bool)
    (s : Option fips_service_indicator_state) : SIResult :=
  update_if (is_ec_fips_approved eckey.group_curve_nid) alloc_ok s

/-- `ECDH_verify_service_indicator` (lines 273-277). -/
def ECDH_verify_service_indicator (ec_key : EC_KEY) (alloc_ok : Bool)
    (s : Option fips_service_indicator_state) : SIResult :=
  update_if (is_ec_fips_approved ec_key.group_curve_nid) alloc_ok s

/-- The part of `EVP_PKEY` read by the keygen verify function. -/
structure EVP_PKEY where
  type : Int
  pkey_size : Nat
  ec_curve_nid : Int
deriving DecidableEq

/-- The approval decision of `EVP_PKEY_keygen_verify_service_indicator`
(lines 279-302). -/
def evp_pkey_keygen_approved (pkey : EVP_PKEY) : Bool :=
  if pkey.type = EVP_PKEY_RSA ∨ pkey.type = EVP_PKEY_RSA_PSS then
    (pkey.pkey_size == 256) || (pkey.pkey_size == 384) || (pkey.pkey_size == 512)
  else if pkey.type = EVP_PKEY_EC then
    is_ec_fips_approved pkey.ec_curve_nid
  else
    false

/-- `EVP_PKEY_keygen_verify_service_indicator` (lines 279-302). -/
def EVP_PKEY_keygen_verify_service_indicator (pkey : EVP_PKEY) (alloc_ok : Bool)
    (s : Option fips_service_indicator_state) : SIResult :=
  update_if (evp_pkey_keygen_approved pkey) alloc_ok s

/-- The part of `EVP_CIPHER_CTX` read by the cipher verify function:
`EVP_CIPHER_CTX_nid(ctx)`. -/
structure EVP_CIPHER_CTX where
  cipher_nid : Int
deriving DecidableEq

/-- The switch of `EVP_Cipher_verify_service_indicator` (lines 304-319). -/
def evp_cipher_approved (ctx : EVP_CIPHER_CTX) : Bool :=
  if ctx.cipher_nid = NID_aes_128_ecb ∨ ctx.cipher_nid = NID_aes_192_ecb ∨
      ctx.cipher_nid = NID_aes_256_ecb ∨
      ctx.cipher_nid = NID_aes_128_cbc ∨ ctx.cipher_nid = NID_aes_192_cbc ∨
      ctx.cipher_nid = NID_aes_256_cbc ∨
      ctx.cipher_nid = NID_aes_128_ctr ∨ ctx.cipher_nid = NID_aes_192_ctr ∨
      ctx.cipher_nid = NID_aes_256_ctr then
    true
  else
    false

/-- `EVP_Cipher_verify_service_indicator` (lines 304-319). -/
def EVP_Cipher_verify_service_indicator (ctx : EVP_CIPHER_CTX) (alloc_ok : Bool)
    (s : Option fips_service_indicator_state) : SIResult :=
  update_if (evp_cipher_approved ctx) alloc_ok s

/-- `EVP_DigestVerify_verify_service_indicator` (lines 321-324):
`rsa_1024_ok = 1` with the verifying digest allow-list. -/
def EVP_DigestVerify_verify_service_indicator (ctx : EVP_MD_CTX) (alloc_ok : Bool)
    (s : Option fips_service_indicator_state)
    (queue probe_errors : List Nat) : SIResult × List Nat :=
  evp_md_ctx_verify_service_indicator ctx true is_md_fips_approved_for_verifying
    alloc_ok s queue probe_errors

/-- `EVP_DigestSign_verify_service_indicator` (lines 326-329):
`rsa_1024_ok = 0` with the signing digest allow-list. -/
def EVP_DigestSign_verify_service_indicator (ctx : EVP_MD_CTX) (alloc_ok : Bool)
    (s : Option fips_service_indicator_state)
    (queue probe_errors : List Nat) : SIResult × List Nat :=
  evp_md_ctx_verify_service_indicator ctx false is_md_fips_approved_for_signing
    alloc_ok s queue probe_errors

/-- The switch of `HMAC_verify_service_indicator` (lines 332-345). -/
def hmac_approved (evp_md : EVP_MD) : Bool :=
  if EVP_MD_type evp_md = NID_sha1 ∨ EVP_MD_type evp_md = NID_sha224 ∨
      EVP_MD_type evp_md = NID_sha256 ∨ EVP_MD_type evp_md = NID_sha384 ∨
      EVP_MD_type evp_md = NID_sha512 then
    true
  else
    false

/-- `HMAC_verify_service_indicator` (lines 332-345). -/
def HMAC_verify_service_indicator (evp_md : EVP_MD) (alloc_ok : Bool)
    (s : Option fips_service_indicator_state) : SIResult :=
  update_if (hmac_approved evp_md) alloc_ok s

/-- The switch of `TLSKDF_verify_service_indicator` (lines 347-365). -/
def tlskdf_approved (dgst : EVP_MD) : Bool :=
  if EVP_MD_type dgst = NID_md5 ∨ EVP_MD_type dgst = NID_sha1 ∨
      EVP_MD_type dgst = NID_md5_sha1 ∨ EVP_MD_type dgst = NID_sha256 ∨
      EVP_MD_type dgst = NID_sha384 ∨ EVP_MD_type dgst = NID_sha512 then
    true
  else
    false

/-- `TLSKDF_verify_service_indicator` (lines 347-365). -/
def TLSKDF_verify_service_indicator (dgst : EVP_MD) (alloc_ok : Bool)
    (s : Option fips_service_indicator_state) : SIResult :=
  update_if (tlskdf_approved dgst) alloc_ok s

namespace NonFips

/-- `FIPS_service_indicator_before_call` in the build without `AWSLC_FIPS`
(line 369): ignores everything and returns 0. -/
def FIPS_service_indicator_before_call
    (_s : Option fips_service_indicator_state) : Nat := 0

/-- `FIPS_service_indicator_after_call` in the build without `AWSLC_FIPS`
(lines 371-376): ignores everything and returns 1, so that the return value is
always greater than the return value of `FIPS_service_indicator_before_call`. -/
def FIPS_service_indicator_after_call
    (_s : Option fips_service_indicator_state) : Nat := 1

end NonFips

/-- The counter value a collaborator observes for a given thread-local record:
`0` when no record exists (what `service_indicator_get_counter` reports on
failure), else the record's counter. -/
def snapshot : Option fips_service_indicator_state → Nat
  | none => 0
  | some indicator => indicator.counter

/-- One operation of the subsystem, for reasoning about sequences of calls
within a single thread. -/
inductive SIOp where
  | lock
  | unlock
  | update
  | beforeCall
  | afterCall
  | verifyGCM (ctx : EVP_AEAD_CTX)
  | verifyCCM (ctx : EVP_AEAD_CTX)
  | verifyCMAC (ctx : CMAC_CTX)
  | verifyECKeygen (k : EC_KEY)
  | verifyECDH (k : EC_KEY)
  | verifyPKEYKeygen (p : EVP_PKEY)
  | verifyCipher (c : EVP_CIPHER_CTX)
  | verifyDigestSign (c : EVP_MD_CTX)
  | verifyDigestVerify (c : EVP_MD_CTX)
  | verifyHMAC (md : EVP_MD)
  | verifyTLSKDF (md : EVP_MD)
deriving DecidableEq

/-- Effect of one operation on the thread-local record.  The error queue does
not influence the record, so the digest-sign/verify glue is run with empty
queues here. -/
def si_step (op : SIOp) (alloc_ok : Bool)
    (s : Option fips_service_indicator_state) : SIResult :=
  match op with
  | .lock => FIPS_service_indicator_lock_state alloc_ok s
  | .unlock => FIPS_service_indicator_unlock_state alloc_ok s
  | .update => FIPS_service_indicator_update_state alloc_ok s
  | .beforeCall => .ok (FIPS_service_indicator_before_call alloc_ok s).2
  | .afterCall => .ok (FIPS_service_indicator_after_call alloc_ok s).2
  | .verifyGCM ctx => AEAD_GCM_verify_service_indicator ctx alloc_ok s
  | .verifyCCM ctx => AEAD_CCM_verify_service_indicator ctx alloc_ok s
  | .verifyCMAC ctx => AES_CMAC_verify_service_indicator ctx alloc_ok s
  | .verifyECKeygen k => EC_KEY_keygen_verify_service_indicator k alloc_ok s
  | .verifyECDH k => ECDH_verify_service_indicator k alloc_ok s
  | .verifyPKEYKeygen p => EVP_PKEY_keygen_verify_service_indicator p alloc_ok s
  | .verifyCipher c => EVP_Cipher_verify_service_indicator c alloc_ok s
  | .verifyDigestSign c => (EVP_DigestSign_verify_service_indicator c alloc_ok s [] []).1
  | .verifyDigestVerify c => (EVP_DigestVerify_verify_service_indicator c alloc_ok s [] []).1
  | .verifyHMAC md => HMAC_verify_service_indicator md alloc_ok s
  | .verifyTLSKDF md => TLSKDF_verify_service_indicator md alloc_ok s

/-- Run a sequence of operations (each paired with the allocation outcome for
a possible lazy store creation); `abort()` stops the thread. -/
def si_run : List (SIOp × Bool) → Option fips_service_indicator_state → SIResult
  | [], s => .ok s
  | p :: rest, s =>
    match si_step p.1 p.2 s with
    | .aborted => .aborted
    | .ok s1 => si_run rest s1

theorem update_state_snapshot (alloc_ok : Bool)
    (s s1 : Option fips_service_indicator_state)
    (h : FIPS_service_indicator_update_state alloc_ok s = .ok s1) :
    snapshot s1 = snapshot s ∨ snapshot s1 = (snapshot s + 1) % UINT64_MOD := by
  cases s with
  | none =>
    cases alloc_ok with
    | false =>
      simp [FIPS_service_indicator_update_state, service_indicator_get] at h
      subst h
      exact Or.inl rfl
    | true =>
      simp [FIPS_service_indicator_update_state, service_indicator_get,
        STATE_UNLOCKED] at h
      subst h
      exact Or.inr rfl
  | some st =>
    by_cases hl : st.lock_state = STATE_UNLOCKED
    · simp [FIPS_service_indicator_update_state, service_indicator_get, hl] at h
      subst h
      exact Or.inr rfl
    · simp [FIPS_service_indicator_update_state, service_indicator_get, hl] at h
      subst h
      exact Or.inl rfl

theorem update_if_snapshot (approved : Prop) [Decidable approved] (alloc_ok : Bool)
    (s s1 : Option fips_service_indicator_state)
    (h : update_if approved alloc_ok s = .ok s1) :
    snapshot s1 = snapshot s ∨ snapshot s1 = (snapshot s + 1) % UINT64_MOD := by
  by_cases hP : approved
  · simp only [update_if, if_pos hP] at h
    exact update_state_snapshot alloc_ok s s1 h
  · simp only [update_if, if_neg hP] at h
    cases h
    exact Or.inl rfl

theorem lock_state_snapshot (alloc_ok : Bool)
    (s s1 : Option fips_service_indicator_state)
    (h : FIPS_service_indicator_lock_state alloc_ok s = .ok s1) :
    snapshot s1 = snapshot s := by
  cases s with
  | none =>
    cases alloc_ok with
    | false =>
      simp [FIPS_service_indicator_lock_state, service_indicator_get] at h
      subst h
      rfl
    | true =>
      simp [FIPS_service_indicator_lock_state, service_indicator_get,
        STATE_UNLOCKED, UINT64_MOD] at h
      subst h
      rfl
  | some st =>
    simp only [FIPS_service_indicator_lock_state, service_indicator_get] at h
    split at h
    · cases h
    · cases h
      rfl

theorem unlock_state_snapshot (alloc_ok : Bool)
    (s s1 : Option fips_service_indicator_state)
    (h : FIPS_service_indicator_unlock_state alloc_ok s = .ok s1) :
    snapshot s1 = snapshot s := by
  cases s with
  | none =>
    cases alloc_ok with
    | false =>
      simp [FIPS_service_indicator_unlock_state, service_indicator_get] at h
      subst h
      rfl
    | true =>
      simp [FIPS_service_indicator_unlock_state, service_indicator_get,
        STATE_UNLOCKED] at h
  | some st =>
    simp only [FIPS_service_indicator_unlock_state, service_indicator_get] at h
    split at h
    · cases h
    · cases h
      rfl

theorem get_counter_snapshot (alloc_ok : Bool)
    (s : Option fips_service_indicator_state) :
    snapshot (service_indicator_get_counter alloc_ok s).2 = snapshot s := by
  cases s with
  | none =>
    cases alloc_ok <;>
      simp [service_indicator_get_counter, service_indicator_get,
        STATE_UNLOCKED, snapshot]
  | some st =>
    simp [service_indicator_get_counter, service_indicator_get, snapshot]

/-- Every operation of the subsystem that returns normally either leaves the
observable counter unchanged or bumps it by one modulo `2 ^ 64`. -/
theorem si_step_snapshot (op : SIOp) (alloc_ok : Bool)
    (s s1 : Option fips_service_indicator_state)
    (h : si_step op alloc_ok s = .ok s1) :
    snapshot s1 = snapshot s ∨ snapshot s1 = (snapshot s + 1) % UINT64_MOD := by
  cases op with
  | lock => exact Or.inl (lock_state_snapshot _ _ _ h)
  | unlock => exact Or.inl (unlock_state_snapshot _ _ _ h)
  | update => exact update_state_snapshot _ _ _ h
  | beforeCall =>
    simp only [si_step, FIPS_service_indicator_before_call] at h
    cases h
    exact Or.inl (get_counter_snapshot _ _)
  | afterCall =>
    simp only [si_step, FIPS_service_indicator_after_call] at h
    cases h
    exact Or.inl (get_counter_snapshot _ _)
  | verifyGCM ctx => exact update_if_snapshot _ _ _ _ h
  | verifyCCM ctx => exact update_if_snapshot _ _ _ _ h
  | verifyCMAC ctx => exact update_if_snapshot _ _ _ _ h
  | verifyECKeygen k => exact update_if_snapshot _ _ _ _ h
  | verifyECDH k => exact update_if_snapshot _ _ _ _ h
  | verifyPKEYKeygen p => exact update_if_snapshot _ _ _ _ h
  | verifyCipher c => exact update_if_snapshot _ _ _ _ h
  | verifyDigestSign c => exact update_if_snapshot _ _ _ _ h
  | verifyDigestVerify c => exact update_if_snapshot _ _ _ _ h
  | verifyHMAC md => exact update_if_snapshot _ _ _ _ h
  | verifyTLSKDF md => exact update_if_snapshot _ _ _ _ h

/-- Along any completed run whose length keeps the counter away from the
`uint64_t` wrap, the observable counter is non-decreasing and grows by at most
the number of operations. -/
theorem si_run_snapshot_le (ops : List (SIOp × Bool))
    (s s1 : Option fips_service_indicator_state)
    (h : si_run ops s = .ok s1)
    (hb : snapshot s + ops.length < UINT64_MOD) :
    snapshot s ≤ snapshot s1 ∧ snapshot s1 ≤ snapshot s + ops.length := by
  induction ops generalizing s with
  | nil =>
    simp only [si_run] at h
    cases h
    simp
  | cons p rest ih =>
    simp only [List.length_cons] at hb ⊢
    simp only [si_run] at h
    cases hstep : si_step p.1 p.2 s with
    | aborted => rw [hstep] at h; cases h
    | ok smid =>
      rw [hstep] at h
      have hsnap := si_step_snapshot p.1 p.2 s smid hstep
      rcases hsnap with heq | heq
      · have := ih smid h (by omega)
        omega
      · have hlt : snapshot s + 1 < UINT64_MOD := by omega
        rw [Nat.mod_eq_of_lt hlt] at heq
        have := ih smid h (by omega)
        omega

/-- Running `n` updates (with the store present and unlocked) adds `n` to the
counter modulo `2 ^ 64`. -/
theorem si_run_replicate_update (n : Nat) :
    ∀ c : Nat, c < UINT64_MOD →
      si_run (List.replicate n (SIOp.update, true)) (some ⟨0, c⟩) =
        .ok (some ⟨0, (c + n) % UINT64_MOD⟩) := by
  induction n with
  | zero =>
    intro c hc
    simp [si_run, Nat.mod_eq_of_lt hc]
  | succ n ih =>
    intro c hc
    rw [List.replicate_succ]
    have hstep : si_step SIOp.update true (some ⟨0, c⟩) =
        .ok (some ⟨0, (c + 1) % UINT64_MOD⟩) := by
      simp [si_step, FIPS_service_indicator_update_state, service_indicator_get,
        STATE_UNLOCKED]
    have hlt : (c + 1) % UINT64_MOD < UINT64_MOD :=
      Nat.mod_lt _ (by norm_num [UINT64_MOD])
    calc si_run ((SIOp.update, true) :: List.replicate n (SIOp.update, true))
          (some ⟨0, c⟩)
        = si_run (List.replicate n (SIOp.update, true))
            (some ⟨0, (c + 1) % UINT64_MOD⟩) := by
          simp only [si_run, hstep]
      _ = .ok (some ⟨0, ((c + 1) % UINT64_MOD + n) % UINT64_MOD⟩) := ih _ hlt
      _ = .ok (some ⟨0, (c + (n + 1)) % UINT64_MOD⟩) := by
          rw [Nat.mod_add_mod]
          have harith : c + 1 + n = c + (n + 1) := by omega
          rw [harith]

/-- C1 (counterexample): at a state whose counter holds the maximal `uint64_t`
value, a call to the update primitive with the store available and
`lock_depth = 0` returns normally with the counter wrapped to 0 — it does not
increase the counter by exactly 1. -/
theorem C1_counterexample :
    FIPS_service_indicator_update_state true (some ⟨0, 2 ^ 64 - 1⟩) =
      .ok (some ⟨0, 0⟩) ∧
    (0 : Nat) ≠ (2 ^ 64 - 1) + 1 := by
  decide

/-- C1 (amended): whenever `service_indicator_get` yields a store with
`lock_depth = 0`, the update primitive sets the counter to
`(counter + 1) mod 2 ^ 64` — an increase by exactly 1 whenever
`counter + 1 < 2 ^ 64`; when the store is obtained but `lock_depth > 0`, or
when no store can be obtained, the call is a no-op that changes no state and
surfaces no failure. -/
theorem C1_update_state_amended (alloc_ok : Bool)
    (s : Option fips_service_indicator_state) :
    (∀ st, service_indicator_get alloc_ok s = some st → st.lock_state = 0 →
        st.counter + 1 < UINT64_MOD →
        FIPS_service_indicator_update_state alloc_ok s =
          .ok (some ⟨st.lock_state, st.counter + 1⟩)) ∧
    (∀ st, service_indicator_get alloc_ok s = some st → st.lock_state = 0 →
        FIPS_service_indicator_update_state alloc_ok s =
          .ok (some ⟨st.lock_state, (st.counter + 1) % UINT64_MOD⟩)) ∧
    (∀ st, service_indicator_get alloc_ok s = some st → 0 < st.lock_state →
        FIPS_service_indicator_update_state alloc_ok s = .ok (some st)) ∧
    (service_indicator_get alloc_ok s = none →
        FIPS_service_indicator_update_state alloc_ok s = .ok s) := by
  refine ⟨?_, ?_, ?_, ?_⟩
  · intro st hget hl hlt
    simp [FIPS_service_indicator_update_state, hget, STATE_UNLOCKED, hl,
      Nat.mod_eq_of_lt hlt]
  · intro st hget hl
    simp [FIPS_service_indicator_update_state, hget, STATE_UNLOCKED, hl]
  · intro st hget hl
    simp [FIPS_service_indicator_update_state, hget, STATE_UNLOCKED, hl.ne']
  · intro hget
    cases s with
    | none => simp [FIPS_service_indicator_update_state, hget]
    | some st => simp [service_indicator_get] at hget

/-- C1 (amended, witness): a concrete unlocked store with counter 5 is bumped
to 6. -/
theorem C1_update_state_amended_witness :
    FIPS_service_indicator_update_state true (some ⟨0, 5⟩) =
      .ok (some ⟨0, 5 + 1⟩) :=
  (C1_update_state_amended true (some ⟨0, 5⟩)).1 ⟨0, 5⟩ rfl rfl
    (by norm_num [UINT64_MOD])

/-- C2 (counterexample): incrementing the approval counter past the 64-bit
range does not abort: the update primitive returns normally and the counter
silently wraps from `2 ^ 64 - 1` to 0. -/
theorem C2_counterexample :
    FIPS_service_indicator_update_state true (some ⟨0, 2 ^ 64 - 1⟩) ≠
      SIResult.aborted ∧
    FIPS_service_indicator_update_state true (some ⟨0, 2 ^ 64 - 1⟩) =
      .ok (some ⟨0, 0⟩) := by
  decide

/-- C2 (amended): the overflow check guards the lock-depth counter, not the
approval counter: a lock call aborts exactly when `lock_state` holds the
maximal `uint64_t` value, while the update primitive never aborts (the
approval counter wraps modulo `2 ^ 64` unchecked). -/
theorem C2_overflow_amended (alloc_ok : Bool) (st : fips_service_indicator_state)
    (hl : st.lock_state < UINT64_MOD) :
    (FIPS_service_indicator_lock_state alloc_ok (some st) = .aborted ↔
      st.lock_state = UINT64_MOD - 1) ∧
    (∀ s2 : Option fips_service_indicator_state,
      FIPS_service_indicator_update_state alloc_ok s2 ≠ .aborted) := by
  have hM : UINT64_MOD = 18446744073709551616 := by norm_num [UINT64_MOD]
  constructor
  · constructor
    · intro h
      by_contra hne
      have h1 : st.lock_state + 1 < UINT64_MOD := by omega
      simp only [FIPS_service_indicator_lock_state, service_indicator_get,
        Nat.mod_eq_of_lt h1] at h
      rw [if_neg (by omega)] at h
      cases h
    · intro hmax
      have h1 : st.lock_state + 1 = UINT64_MOD := by omega
      simp only [FIPS_service_indicator_lock_state, service_indicator_get, h1,
        Nat.mod_self]
      rw [if_pos (by omega)]
  · intro s2
    cases s2 with
    | none =>
      cases alloc_ok <;>
        simp [FIPS_service_indicator_update_state, service_indicator_get,
          STATE_UNLOCKED]
    | some st2 =>
      simp only [FIPS_service_indicator_update_state, service_indicator_get]
      split <;> simp

/-- C2 (amended, witness): a lock call at the maximal lock depth aborts. -/
theorem C2_overflow_amended_witness :
    FIPS_service_indicator_lock_state true (some ⟨2 ^ 64 - 1, 0⟩) = .aborted :=
  ((C2_overflow_amended true ⟨2 ^ 64 - 1, 0⟩ (by norm_num [UINT64_MOD])).1).mpr
    (by norm_num [UINT64_MOD])

/-- C3 (confirmed): whenever the unlock primitive obtains a store, it aborts
the process if `lock_depth = 0` and otherwise decreases `lock_depth` by
exactly 1 (leaving the counter unchanged). -/
theorem C3_unlock_state (alloc_ok : Bool)
    (s : Option fips_service_indicator_state)
    (st : fips_service_indicator_state)
    (hget : service_indicator_get alloc_ok s = some st) :
    (st.lock_state = 0 →
      FIPS_service_indicator_unlock_state alloc_ok s = .aborted) ∧
    (0 < st.lock_state →
      FIPS_service_indicator_unlock_state alloc_ok s =
        .ok (some ⟨st.lock_state - 1, st.counter⟩)) := by
  constructor
  · intro hl
    simp [FIPS_service_indicator_unlock_state, hget, hl]
  · intro hl
    simp [FIPS_service_indicator_unlock_state, hget, hl.ne']

/-- C3 (witness): unlocking at depth 0 aborts; unlocking at depth 3 yields
depth 2. -/
theorem C3_unlock_state_witness :
    FIPS_service_indicator_unlock_state true (some ⟨0, 7⟩) = .aborted ∧
    FIPS_service_indicator_unlock_state true (some ⟨3, 7⟩) =
      .ok (some ⟨3 - 1, 7⟩) :=
  ⟨(C3_unlock_state true (some ⟨0, 7⟩) ⟨0, 7⟩ rfl).1 rfl,
    (C3_unlock_state true (some ⟨3, 7⟩) ⟨3, 7⟩ rfl).2 (by norm_num)⟩

/-- C4 (counterexample): the counter is not monotone across every sequence of
subsystem operations: starting from a fresh store, one update raises the
snapshot to 1, and continuing the same thread with `2 ^ 64 - 1` further
updates wraps the snapshot back to 0, so the later snapshot is smaller than
the earlier one. -/
theorem C4_counterexample :
    si_run [(SIOp.update, true)] (some ⟨0, 0⟩) = .ok (some ⟨0, 1⟩) ∧
    si_run (List.replicate (2 ^ 64 - 1) (SIOp.update, true)) (some ⟨0, 1⟩) =
      .ok (some ⟨0, 0⟩) ∧
    ¬ (1 : Nat) ≤ 0 := by
  refine ⟨by decide, ?_, by decide⟩
  have h := si_run_replicate_update (2 ^ 64 - 1) 1 (by norm_num [UINT64_MOD])
  have harith : (1 + (2 ^ 64 - 1)) % UINT64_MOD = 0 := by norm_num [UINT64_MOD]
  rw [show (2 ^ 64 - 1 : Nat) = UINT64_MOD - 1 from by norm_num [UINT64_MOD]] at h ⊢
  rw [h]
  rw [show (1 + (UINT64_MOD - 1)) % UINT64_MOD = 0 from by norm_num [UINT64_MOD]]

/-- C4 (amended): every operation of the subsystem changes the observable
counter by at most +1 modulo `2 ^ 64`; consequently, along any completed
sequence of operations short enough that the counter cannot wrap, a later
snapshot is at least an earlier one; and `before_call` twice with no
intervening update returns equal values. -/
theorem C4_counter_monotonic_amended :
    (∀ (ops : List (SIOp × Bool)) (s s1 : Option fips_service_indicator_state),
        si_run ops s = .ok s1 → snapshot s + ops.length < UINT64_MOD →
        snapshot s ≤ snapshot s1) ∧
    (∀ (op : SIOp) (alloc_ok : Bool)
        (s s1 : Option fips_service_indicator_state),
        si_step op alloc_ok s = .ok s1 →
        snapshot s1 = snapshot s ∨
          snapshot s1 = (snapshot s + 1) % UINT64_MOD) ∧
    (∀ (a1 a2 : Bool) (s : Option fips_service_indicator_state),
        (FIPS_service_indicator_before_call a2
            (FIPS_service_indicator_before_call a1 s).2).1 =
          (FIPS_service_indicator_before_call a1 s).1) := by
  refine ⟨?_, si_step_snapshot, ?_⟩
  · intro ops s s1 h hb
    exact (si_run_snapshot_le ops s s1 h hb).1
  · intro a1 a2 s
    cases s with
    | none => cases a1 <;> cases a2 <;> rfl
    | some st => rfl

/-- C4 (amended, witness): across one update from a fresh store the snapshot
does not decrease. -/
theorem C4_counter_monotonic_amended_witness :
    snapshot (some ⟨0, 0⟩) ≤ snapshot (some ⟨0, 1⟩) :=
  C4_counter_monotonic_amended.1 [(SIOp.update, true)] (some ⟨0, 0⟩)
    (some ⟨0, 1⟩) (by decide) (by decide)

/-- C5 (confirmed): in the build without `AWSLC_FIPS`, `before_call` always
returns 0 and `after_call` always returns 1, for every thread state, so
`after > before` holds for every call. -/
theorem C5_nonfips_stub (s : Option fips_service_indicator_state) :
    NonFips.FIPS_service_indicator_before_call s = 0 ∧
    NonFips.FIPS_service_indicator_after_call s = 1 ∧
    NonFips.FIPS_service_indicator_before_call s <
      NonFips.FIPS_service_indicator_after_call s :=
  ⟨rfl, rfl, Nat.zero_lt_one⟩

/-- C9 (confirmed): with the store present and unlocked (and away from the
counter wrap), the AEAD-CCM verify function increments the counter exactly
when the key length is 16 bytes and the tag length is 4 bytes, and leaves the
state unchanged for every other combination. -/
theorem C9_ccm_verify (ctx : EVP_AEAD_CTX) (alloc_ok : Bool)
    (st : fips_service_indicator_state)
    (hl : st.lock_state = 0) (hc : st.counter + 1 < UINT64_MOD) :
    AEAD_CCM_verify_service_indicator ctx alloc_ok (some st) =
      .ok (some (if ctx.aead_key_length = 16 ∧ ctx.tag_len = 4 then
        { st with counter := st.counter + 1 } else st)) := by
  by_cases h : ctx.aead_key_length = 16 ∧ ctx.tag_len = 4
  · simp [AEAD_CCM_verify_service_indicator, update_if, h,
      FIPS_service_indicator_update_state, service_indicator_get,
      STATE_UNLOCKED, hl, Nat.mod_eq_of_lt hc]
  · simp [AEAD_CCM_verify_service_indicator, update_if, h]

/-- C9 (witness): key length 16 with tag length 4 bumps the counter; key
length 16 with tag length 8 leaves it unchanged. -/
theorem C9_ccm_verify_witness :
    AEAD_CCM_verify_service_indicator ⟨16, 4⟩ true (some ⟨0, 0⟩) =
      .ok (some (if (16 : Nat) = 16 ∧ (4 : Nat) = 4 then
        ({ lock_state := 0, counter := 0 + 1 } : fips_service_indicator_state)
        else ⟨0, 0⟩)) ∧
    AEAD_CCM_verify_service_indicator ⟨16, 8⟩ true (some ⟨0, 0⟩) =
      .ok (some (if (16 : Nat) = 16 ∧ (8 : Nat) = 4 then
        ({ lock_state := 0, counter := 0 + 1 } : fips_service_indicator_state)
        else ⟨0, 0⟩)) :=
  ⟨C9_ccm_verify ⟨16, 4⟩ true ⟨0, 0⟩ rfl (by norm_num [UINT64_MOD]),
    C9_ccm_verify ⟨16, 8⟩ true ⟨0, 0⟩ rfl (by norm_num [UINT64_MOD])⟩

/-- C10 (confirmed): when the thread-local store cannot be obtained
(allocation or registration fails), the lock and unlock primitives return
silently with no state change; in particular unlock at depth 0 with no store
available does not abort. -/
theorem C10_no_store_silent :
    FIPS_service_indicator_lock_state false none = .ok none ∧
    FIPS_service_indicator_unlock_state false none = .ok none ∧
    FIPS_service_indicator_unlock_state false none ≠ .aborted := by
  refine ⟨rfl, rfl, by decide⟩

theorem rsa_md_and_size_ok_size (md_type : Int) (pkey_size : Nat)
    (rsa_1024_ok : Bool) (md_ok : Int → Bool)
    (h : rsa_md_and_size_ok md_type pkey_size rsa_1024_ok md_ok = true) :
    (rsa_1024_ok = true ∧ pkey_size = 128) ∨ pkey_size = 256 ∨
      pkey_size = 384 ∨ pkey_size = 512 := by
  simp only [rsa_md_and_size_ok, Bool.and_eq_true, Bool.or_eq_true,
    beq_iff_eq] at h
  tauto

/-- For an RSA or RSA-PSS key, approval forces the modulus size into the
allow-list (with 128 bytes possible only when `rsa_1024_ok` is set). -/
theorem evp_md_ctx_approved_rsa_size (ctx : EVP_MD_CTX) (rsa_1024_ok : Bool)
    (md_ok : Int → Bool)
    (hk : ctx.pctx.pkey_id = EVP_PKEY_RSA ∨ ctx.pctx.pkey_id = EVP_PKEY_RSA_PSS)
    (h : evp_md_ctx_approved ctx rsa_1024_ok md_ok = true) :
    (rsa_1024_ok = true ∧ ctx.pctx.pkey_size = 128) ∨
      ctx.pctx.pkey_size = 256 ∨ ctx.pctx.pkey_size = 384 ∨
      ctx.pctx.pkey_size = 512 := by
  cases hmd : ctx.md with
  | none => simp [evp_md_ctx_approved, hmd] at h
  | some ctx_md =>
    simp only [evp_md_ctx_approved, hmd] at h
    rw [if_pos hk] at h
    cases hsig : ctx.pctx.signature_md with
    | none => simp [hsig] at h
    | some pctx_md =>
      simp only [hsig] at h
      split at h
      · simp at h
      · cases hpad : ctx.pctx.rsa_padding with
        | none => simp [hpad] at h
        | some padding =>
          simp only [hpad] at h
          split at h
          · cases hsalt : ctx.pctx.rsa_pss_saltlen with
            | none => simp [hsalt] at h
            | some salt_len =>
              cases hmgf : ctx.pctx.rsa_mgf1_md with
              | none => simp [hsalt, hmgf] at h
              | some mgf1_md =>
                simp only [hsalt, hmgf] at h
                split at h
                · simp at h
                · exact rsa_md_and_size_ok_size _ _ _ _ h
          · exact rsa_md_and_size_ok_size _ _ _ _ h

/-- A not-approved probe never calls the update primitive: the verify glue
returns the thread-local record unchanged. -/
theorem evp_md_ctx_not_approved_no_update (ctx : EVP_MD_CTX) (rsa_1024_ok : Bool)
    (md_ok : Int → Bool) (alloc_ok : Bool)
    (s : Option fips_service_indicator_state) (queue probe_errors : List Nat)
    (h : evp_md_ctx_approved ctx rsa_1024_ok md_ok = false) :
    (evp_md_ctx_verify_service_indicator ctx rsa_1024_ok md_ok alloc_ok s
        queue probe_errors).1 = .ok s := by
  simp [evp_md_ctx_verify_service_indicator, update_if, h]

/-- C6 (confirmed): for an RSA or RSA-PSS signing or verification context with
PSS padding, the composite signature predicate approves only if the salt
length is unspecified (-1) or equals the output length of the digest bound to
the context, and the MGF1 digest equals the signing digest; when either
condition fails, the operation is not approved and the counter does not
change. -/
theorem C6_pss_salt_mgf1 (ctx : EVP_MD_CTX) (rsa_1024_ok : Bool)
    (md_ok : Int → Bool) (alloc_ok : Bool)
    (s : Option fips_service_indicator_state) (queue probe_errors : List Nat)
    (hk : ctx.pctx.pkey_id = EVP_PKEY_RSA ∨ ctx.pctx.pkey_id = EVP_PKEY_RSA_PSS)
    (hp : ctx.pctx.rsa_padding = some RSA_PKCS1_PSS_PADDING) :
    (evp_md_ctx_approved ctx rsa_1024_ok md_ok = true →
      ∃ ctx_md salt_len mgf1_md, ctx.md = some ctx_md ∧
        ctx.pctx.rsa_pss_saltlen = some salt_len ∧
        (salt_len = -1 ∨ salt_len = (EVP_MD_size ctx_md : Int)) ∧
        ctx.pctx.rsa_mgf1_md = some mgf1_md ∧
        EVP_MD_type mgf1_md = EVP_MD_type ctx_md) ∧
    (∀ ctx_md salt_len mgf1_md, ctx.md = some ctx_md →
      ctx.pctx.rsa_pss_saltlen = some salt_len →
      ctx.pctx.rsa_mgf1_md = some mgf1_md →
      ¬ ((salt_len = -1 ∨ salt_len = (EVP_MD_size ctx_md : Int)) ∧
          EVP_MD_type mgf1_md = EVP_MD_type ctx_md) →
      evp_md_ctx_approved ctx rsa_1024_ok md_ok = false ∧
      (evp_md_ctx_verify_service_indicator ctx rsa_1024_ok md_ok alloc_ok s
          queue probe_errors).1 = .ok s) := by
  constructor
  · intro h
    cases hmd : ctx.md with
    | none => simp [evp_md_ctx_approved, hmd] at h
    | some ctx_md =>
      simp only [evp_md_ctx_approved, hmd] at h
      rw [if_pos hk] at h
      cases hsig : ctx.pctx.signature_md with
      | none => simp [hsig] at h
      | some pctx_md =>
        simp only [hsig] at h
        split at h
        · simp at h
        · rename_i hty
          have hty2 : pctx_md = ctx_md := by
            simpa [EVP_MD_type] using not_not.mp hty
          subst hty2
          simp only [hp] at h
          rw [if_pos trivial] at h
          cases hsalt : ctx.pctx.rsa_pss_saltlen with
          | none => simp [hsalt] at h
          | some salt_len =>
            cases hmgf : ctx.pctx.rsa_mgf1_md with
            | none => simp [hsalt, hmgf] at h
            | some mgf1_md =>
              simp only [hsalt, hmgf] at h
              split at h
              · simp at h
              · rename_i hcond
                refine ⟨pctx_md, salt_len, mgf1_md, rfl, rfl, ?_, rfl, ?_⟩
                · tauto
                · tauto
  · intro ctx_md salt_len mgf1_md hmd hsalt hmgf hcond
    have hap : evp_md_ctx_approved ctx rsa_1024_ok md_ok = false := by
      simp only [evp_md_ctx_approved, hmd]
      rw [if_pos hk]
      cases hsig : ctx.pctx.signature_md with
      | none => simp
      | some pctx_md =>
        simp only []
        by_cases hty : EVP_MD_type pctx_md ≠ EVP_MD_type ctx_md
        · rw [if_pos hty]
        · rw [if_neg hty]
          have hty2 : pctx_md = ctx_md := by
            simpa [EVP_MD_type] using not_not.mp hty
          subst hty2
          simp only [hp]
          rw [if_pos trivial]
          simp only [hsalt, hmgf]
          rw [if_pos (by tauto)]
    exact ⟨hap,
      evp_md_ctx_not_approved_no_update _ _ _ _ _ _ _ hap⟩

/-- An RSA signing context with digest sha256, PKCS#1 v1.5 padding and
modulus size `n` bytes: the scenario family used to exercise the modulus-size
rule. -/
def rsa_sha256_pkcs1_ctx (n : Nat) : EVP_MD_CTX :=
  { md := some NID_sha256,
    pctx :=
      { pkey_id := EVP_PKEY_RSA, pkey_size := n, ec_curve_nid := 0,
        signature_md := some NID_sha256,
        rsa_padding := some RSA_PKCS1_PADDING,
        rsa_pss_saltlen := none, rsa_mgf1_md := none } }

/-- The RSA-PSS signing scenario of the spec with salt length 16 instead of
the digest length 32. -/
def pss_sha256_salt16_ctx : EVP_MD_CTX :=
  { md := some NID_sha256,
    pctx :=
      { pkey_id := EVP_PKEY_RSA, pkey_size := 256, ec_curve_nid := 0,
        signature_md := some NID_sha256,
        rsa_padding := some RSA_PKCS1_PSS_PADDING,
        rsa_pss_saltlen := some 16, rsa_mgf1_md := some NID_sha256 } }

/-- C6 (witness): RSA-PSS with digest sha256, modulus 256 bytes, salt length
16 and MGF1 digest sha256 is not approved for signing and the thread state is
untouched. -/
theorem C6_pss_salt_mgf1_witness :
    evp_md_ctx_approved pss_sha256_salt16_ctx false
        is_md_fips_approved_for_signing = false ∧
    (evp_md_ctx_verify_service_indicator pss_sha256_salt16_ctx false
        is_md_fips_approved_for_signing true (some ⟨0, 0⟩) [] []).1 =
      .ok (some ⟨0, 0⟩) :=
  (C6_pss_salt_mgf1 pss_sha256_salt16_ctx false is_md_fips_approved_for_signing
      true (some ⟨0, 0⟩) [] [] (Or.inl rfl) rfl).2
    NID_sha256 16 NID_sha256 rfl rfl rfl (by decide)

/-- C7 (confirmed): for RSA and RSA-PSS keys the composite signature predicate
accepts modulus sizes 256, 384 and 512 bytes on both the signing and the
verification path, accepts 128 bytes only on the verification path, and
approves no other modulus size. -/
theorem C7_rsa_modulus_size :
    (∀ ctx : EVP_MD_CTX,
        (ctx.pctx.pkey_id = EVP_PKEY_RSA ∨
          ctx.pctx.pkey_id = EVP_PKEY_RSA_PSS) →
        evp_md_ctx_approved ctx false is_md_fips_approved_for_signing = true →
        ctx.pctx.pkey_size = 256 ∨ ctx.pctx.pkey_size = 384 ∨
          ctx.pctx.pkey_size = 512) ∧
    (∀ ctx : EVP_MD_CTX,
        (ctx.pctx.pkey_id = EVP_PKEY_RSA ∨
          ctx.pctx.pkey_id = EVP_PKEY_RSA_PSS) →
        evp_md_ctx_approved ctx true is_md_fips_approved_for_verifying = true →
        ctx.pctx.pkey_size = 128 ∨ ctx.pctx.pkey_size = 256 ∨
          ctx.pctx.pkey_size = 384 ∨ ctx.pctx.pkey_size = 512) ∧
    (∀ n : Nat, n = 256 ∨ n = 384 ∨ n = 512 →
        evp_md_ctx_approved (rsa_sha256_pkcs1_ctx n) false
            is_md_fips_approved_for_signing = true ∧
        evp_md_ctx_approved (rsa_sha256_pkcs1_ctx n) true
            is_md_fips_approved_for_verifying = true) ∧
    evp_md_ctx_approved (rsa_sha256_pkcs1_ctx 128) true
        is_md_fips_approved_for_verifying = true ∧
    evp_md_ctx_approved (rsa_sha256_pkcs1_ctx 128) false
        is_md_fips_approved_for_signing = false := by
  refine ⟨?_, ?_, ?_, by decide, by decide⟩
  · intro ctx hk h
    have hs := evp_md_ctx_approved_rsa_size ctx false
      is_md_fips_approved_for_signing hk h
    simpa using hs
  · intro ctx hk h
    have hs := evp_md_ctx_approved_rsa_size ctx true
      is_md_fips_approved_for_verifying hk h
    tauto
  · intro n hn
    rcases hn with rfl | rfl | rfl <;> exact ⟨by decide, by decide⟩

/-- C7 (witness): modulus size 256 bytes is approved on the signing path for
the sha256/PKCS#1 scenario context. -/
theorem C7_rsa_modulus_size_witness :
    evp_md_ctx_approved (rsa_sha256_pkcs1_ctx 256) false
        is_md_fips_approved_for_signing = true :=
  (C7_rsa_modulus_size.2.2.1 256 (Or.inl rfl)).1

/-- C8 (confirmed): a context with no bound digest and every reachable failure
of a parameter accessor (signature digest, padding mode, PSS salt length,
MGF1 digest) yields not-approved with no counter change, and the error queue
is empty after every call to the composite verify glue, so no diagnostic error
raised during the probe is ever visible to the caller. -/
theorem C8_probe_failure_swallowed (ctx : EVP_MD_CTX) (rsa_1024_ok : Bool)
    (md_ok : Int → Bool) (alloc_ok : Bool)
    (s : Option fips_service_indicator_state) (queue probe_errors : List Nat) :
    (evp_md_ctx_verify_service_indicator ctx rsa_1024_ok md_ok alloc_ok s
        queue probe_errors).2 = [] ∧
    (ctx.md = none →
      evp_md_ctx_approved ctx rsa_1024_ok md_ok = false ∧
      (evp_md_ctx_verify_service_indicator ctx rsa_1024_ok md_ok alloc_ok s
          queue probe_errors).1 = .ok s) ∧
    ((ctx.pctx.pkey_id = EVP_PKEY_RSA ∨
        ctx.pctx.pkey_id = EVP_PKEY_RSA_PSS) →
      (ctx.pctx.signature_md = none →
        evp_md_ctx_approved ctx rsa_1024_ok md_ok = false ∧
        (evp_md_ctx_verify_service_indicator ctx rsa_1024_ok md_ok alloc_ok s
            queue probe_errors).1 = .ok s) ∧
      (ctx.pctx.rsa_padding = none →
        evp_md_ctx_approved ctx rsa_1024_ok md_ok = false ∧
        (evp_md_ctx_verify_service_indicator ctx rsa_1024_ok md_ok alloc_ok s
            queue probe_errors).1 = .ok s) ∧
      (ctx.pctx.rsa_padding = some RSA_PKCS1_PSS_PADDING →
        (ctx.pctx.rsa_pss_saltlen = none →
          evp_md_ctx_approved ctx rsa_1024_ok md_ok = false ∧
          (evp_md_ctx_verify_service_indicator ctx rsa_1024_ok md_ok alloc_ok s
              queue probe_errors).1 = .ok s) ∧
        (ctx.pctx.rsa_mgf1_md = none →
          evp_md_ctx_approved ctx rsa_1024_ok md_ok = false ∧
          (evp_md_ctx_verify_service_indicator ctx rsa_1024_ok md_ok alloc_ok s
              queue probe_errors).1 = .ok s))) := by
  refine ⟨rfl, ?_, ?_⟩
  · intro hmd
    have hap : evp_md_ctx_approved ctx rsa_1024_ok md_ok = false := by
      simp [evp_md_ctx_approved, hmd]
    exact ⟨hap, evp_md_ctx_not_approved_no_update _ _ _ _ _ _ _ hap⟩
  · intro hk
    refine ⟨?_, ?_, ?_⟩
    · intro hsig
      have hap : evp_md_ctx_approved ctx rsa_1024_ok md_ok = false := by
        cases hmd : ctx.md with
        | none => simp [evp_md_ctx_approved, hmd]
        | some ctx_md =>
          simp only [evp_md_ctx_approved, hmd]
          rw [if_pos hk]
          simp [hsig]
      exact ⟨hap, evp_md_ctx_not_approved_no_update _ _ _ _ _ _ _ hap⟩
    · intro hpad
      have hap : evp_md_ctx_approved ctx rsa_1024_ok md_ok = false := by
        cases hmd : ctx.md with
        | none => simp [evp_md_ctx_approved, hmd]
        | some ctx_md =>
          simp only [evp_md_ctx_approved, hmd]
          rw [if_pos hk]
          cases hsig : ctx.pctx.signature_md with
          | none => simp
          | some pctx_md =>
            simp only []
            split
            · rfl
            · simp [hpad]
      exact ⟨hap, evp_md_ctx_not_approved_no_update _ _ _ _ _ _ _ hap⟩
    · intro hpss
      constructor
      · intro hsalt
        have hap : evp_md_ctx_approved ctx rsa_1024_ok md_ok = false := by
          cases hmd : ctx.md with
          | none => simp [evp_md_ctx_approved, hmd]
          | some ctx_md =>
            simp only [evp_md_ctx_approved, hmd]
            rw [if_pos hk]
            cases hsig : ctx.pctx.signature_md with
            | none => simp
            | some pctx_md =>
              simp only []
              split
              · rfl
              · simp only [hpss]
                rw [if_pos trivial]
                cases hmgf : ctx.pctx.rsa_mgf1_md <;> simp [hsalt, hmgf]
        exact ⟨hap, evp_md_ctx_not_approved_no_update _ _ _ _ _ _ _ hap⟩
      · intro hmgf
        have hap : evp_md_ctx_approved ctx rsa_1024_ok md_ok = false := by
          cases hmd : ctx.md with
          | none => simp [evp_md_ctx_approved, hmd]
          | some ctx_md =>
            simp only [evp_md_ctx_approved, hmd]
            rw [if_pos hk]
            cases hsig : ctx.pctx.signature_md with
            | none => simp
            | some pctx_md =>
              simp only []
              split
              · rfl
              · simp only [hpss]
                rw [if_pos trivial]
                cases hsalt : ctx.pctx.rsa_pss_saltlen <;> simp [hsalt, hmgf]
        exact ⟨hap, evp_md_ctx_not_approved_no_update _ _ _ _ _ _ _ hap⟩

/-- An RSA context whose bound digest is absent. -/
def no_digest_ctx : EVP_MD_CTX :=
  { md := none,
    pctx :=
      { pkey_id := EVP_PKEY_RSA, pkey_size := 256, ec_curve_nid := 0,
        signature_md := none, rsa_padding := none,
        rsa_pss_saltlen := none, rsa_mgf1_md := none } }

/-- C8 (witness): on a context with no bound digest and a non-empty incoming
error queue plus probe noise, the glue reports not-approved, leaves the state
alone and returns with an empty error queue. -/
theorem C8_probe_failure_swallowed_witness :
    (evp_md_ctx_verify_service_indicator no_digest_ctx false
        is_md_fips_approved_for_signing true (some ⟨0, 0⟩) [5] [7]).2 = [] ∧
    evp_md_ctx_approved no_digest_ctx false
        is_md_fips_approved_for_signing = false :=
  ⟨(C8_probe_failure_swallowed no_digest_ctx false
      is_md_fips_approved_for_signing true (some ⟨0, 0⟩) [5] [7]).1,
    ((C8_probe_failure_swallowed no_digest_ctx false
        is_md_fips_approved_for_signing true (some ⟨0, 0⟩) [5] [7]).2.1 rfl).1⟩

/-- C5 (witness): the stub values at a concrete thread state. -/
theorem C5_nonfips_stub_witness :
    NonFips.FIPS_service_indicator_before_call none = 0 ∧
    NonFips.FIPS_service_indicator_after_call none = 1 ∧
    NonFips.FIPS_service_indicator_before_call none <
      NonFips.FIPS_service_indicator_after_call none :=
  C5_nonfips_stub none
